import Mathlib

/-!
Verification of the SuppliSense reorder computation engine
(backend/app/services/reorder.py) and its listing/CSV consumers
(backend/app/api/routes.py), shallowly embedded in Lean 4.

Python ints are modelled as ℤ, Python floats as ℚ, nullable ORM columns as
Option, and the Status literal type as an inductive.
-/

namespace SuppliSense

/-- Status literal: OK, WARNING or CRITICAL. -/
inductive Status where
  | OK : Status
  | WARNING : Status
  | CRITICAL : Status
deriving DecidableEq, Repr

/-- Severity ordering used to compare statuses: OK < WARNING < CRITICAL. -/
def Status.severity : Status → ℕ
  | .OK => 0
  | .WARNING => 1
  | .CRITICAL => 2

/-- A product row as mapped by the ORM model (backend/app/models/product.py).
Nullable columns become Option fields. Timestamps are abstract integers. -/
structure Product where
  id : ℤ
  sku : String
  name : String
  category : Option String
  supplier : Option String
  quantity : Option ℤ
  low_stock_threshold : Option ℤ
  lead_time_days : Option ℤ
  avg_daily_demand : Option ℚ
  safety_stock : Option ℤ
  is_active : Bool
  created_at : ℤ
  updated_at : ℤ
deriving DecidableEq, Repr

/-- The dict returned by compute_reorder_fields. -/
structure ReorderResult where
  reorder_point : ℤ
  status : Status
  target_stock : ℤ
  suggested_reorder : ℤ
  below_by : ℤ
deriving DecidableEq, Repr

/-- Embedding of compute_rop (reorder.py lines 8-11): zero fallback on any
negative input, otherwise the ceiling of avg_daily_demand * lead_time_days
+ safety_stock. -/
def compute_rop (lead_time_days : ℤ) (avg_daily_demand : ℚ)
    (safety_stock : ℤ) : ℤ :=
  if lead_time_days < 0 ∨ avg_daily_demand < 0 ∨ safety_stock < 0 then 0
  else ⌈avg_daily_demand * (lead_time_days : ℚ) + (safety_stock : ℚ)⌉

/-- Embedding of compute_status (reorder.py lines 14-19). -/
def compute_status (qty rop safety_stock : ℤ) : Status :=
  if qty ≤ safety_stock then .CRITICAL
  else if qty ≤ rop then .WARNING
  else .OK

/-- Embedding of compute_reorder_fields (reorder.py lines 22-42): normalize
null fields to zero, then derive the five output fields. Python `x or 0`
maps both None and 0 to 0, which Option.getD 0 reproduces. -/
def compute_reorder_fields (p : Product) : ReorderResult :=
  let lead : ℤ := p.lead_time_days.getD 0
  let demand : ℚ := p.avg_daily_demand.getD 0
  let safety : ℤ := p.safety_stock.getD 0
  let qty : ℤ := p.quantity.getD 0
  let rop := compute_rop lead demand safety
  let status := compute_status qty rop safety
  let lead_demand : ℤ := ⌈demand * (lead : ℚ)⌉
  let target := rop + lead_demand
  let suggested := max 0 (target - qty)
  let below_by := max 0 (rop - qty)
  { reorder_point := rop
    status := status
    target_stock := target
    suggested_reorder := suggested
    below_by := below_by }

/-- The response model of the reorder listing endpoint (routes.py,
class ReorderItem, a pydantic model): the product's identifying and
numeric fields together with the five computed reorder fields. The
numeric fields are required int/float in the pydantic model, so they are
non-optional here; only category and supplier are Optional[str]. -/
structure ReorderItem where
  id : ℤ
  sku : String
  name : String
  category : Option String
  supplier : Option String
  quantity : ℤ
  lead_time_days : ℤ
  avg_daily_demand : ℚ
  safety_stock : ℤ
  reorder_point : ℤ
  status : Status
  target_stock : ℤ
  suggested_reorder : ℤ
  below_by : ℤ
deriving DecidableEq, Repr

/-- Construction of a ReorderItem from a product and its computed fields,
as done inside the loop of reorder_list (routes.py lines 390-405).
Pydantic validation of the required numeric fields rejects a NULL column
value: constructing an item from a row whose quantity, lead_time_days,
avg_daily_demand or safety_stock column is NULL raises a
ValidationError, modelled as none. -/
def mkReorderItem (p : Product) (f : ReorderResult) : Option ReorderItem :=
  match p.quantity, p.lead_time_days, p.avg_daily_demand, p.safety_stock with
  | some q, some l, some d, some s =>
    some { id := p.id
           sku := p.sku
           name := p.name
           category := p.category
           supplier := p.supplier
           quantity := q
           lead_time_days := l
           avg_daily_demand := d
           safety_stock := s
           reorder_point := f.reorder_point
           status := f.status
           target_stock := f.target_stock
           suggested_reorder := f.suggested_reorder
           below_by := f.below_by }
  | _, _, _, _ => none

/-- The loop body of reorder_list: walk the products, compute the reorder
fields of each, and validate an item exactly when its status is not OK.
A ValidationError raised by the item constructor propagates out of the
loop, making the whole request fail: the failure is modelled as none.
The source computes the fields dict once per product; the pure
compute_reorder_fields is repeated here with the same value. -/
def reorderItemsOf : List Product → Option (List ReorderItem)
  | [] => some []
  | p :: rest =>
    if (compute_reorder_fields p).status ≠ Status.OK then
      match mkReorderItem p (compute_reorder_fields p) with
      | none => none
      | some item => (reorderItemsOf rest).map (fun items => item :: items)
    else reorderItemsOf rest

/-- Embedding of reorder_list (routes.py lines 379-408): query the active
products, then run the filtering loop over them. The database is modelled
as the list of product rows the query would return, in query order; none
is the endpoint erroring with a pydantic ValidationError. -/
def reorder_list (db : List Product) : Option (List ReorderItem) :=
  reorderItemsOf (db.filter (fun p => p.is_active))

/-- One CSV cell, kept typed: the writer stringifies values, and we record
which value lands in which column rather than its string rendering. -/
inductive Cell where
  | str : String → Cell
  | int : ℤ → Cell
  | rat : ℚ → Cell
  | stat : Status → Cell
deriving DecidableEq, Repr

/-- The header row written by reorder_list_csv (routes.py lines 421-438). -/
def csvHeader : List Cell :=
  [.str "sku", .str "name", .str "category", .str "supplier",
   .str "quantity", .str "lead_time_days", .str "avg_daily_demand",
   .str "safety_stock", .str "reorder_point", .str "status",
   .str "target_stock", .str "suggested_reorder", .str "below_by"]

/-- The data row written for one item by reorder_list_csv (routes.py lines
440-456); category and supplier fall back to the empty string. -/
def csvRow (r : ReorderItem) : List Cell :=
  [.str r.sku, .str r.name, .str (r.category.getD ""),
   .str (r.supplier.getD ""), .int r.quantity, .int r.lead_time_days,
   .rat r.avg_daily_demand, .int r.safety_stock,
   .int r.reorder_point, .stat r.status, .int r.target_stock,
   .int r.suggested_reorder, .int r.below_by]

/-- Embedding of reorder_list_csv (routes.py lines 413-463): it calls
reorder_list, so a ValidationError there propagates (none); on success
the document is the header row followed by one row per item, in order. -/
def reorder_list_csv (db : List Product) : Option (List (List Cell)) :=
  (reorder_list db).map (fun items => csvHeader :: items.map csvRow)

/-- The worked example of the spec (quantity 12, lead time 7, demand 1.5,
safety stock 5), with the remaining fields filled arbitrarily. -/
def exampleProduct : Product :=
  { id := 1, sku := "SKU-1", name := "Widget", category := none,
    supplier := none, quantity := some 12, low_stock_threshold := some 10,
    lead_time_days := some 7, avg_daily_demand := some (3/2),
    safety_stock := some 5, is_active := true, created_at := 0,
    updated_at := 0 }

/-- A snapshot with a negative lead time, used to exercise the unguarded
lead-demand intermediate of compute_reorder_fields. -/
def negativeLeadProduct : Product :=
  { id := 2, sku := "SKU-2", name := "Gadget", category := none,
    supplier := none, quantity := some 0, low_stock_threshold := some 10,
    lead_time_days := some (-1), avg_daily_demand := some 2,
    safety_stock := some 0, is_active := true, created_at := 0,
    updated_at := 0 }

/-- A concrete product used to witness the dependency claim. -/
def productA : Product :=
  { id := 1, sku := "A-1", name := "Alpha", category := none,
    supplier := none, quantity := some 12, low_stock_threshold := some 10,
    lead_time_days := some 7, avg_daily_demand := some (3/2),
    safety_stock := some 5, is_active := true, created_at := 0,
    updated_at := 0 }

/-- A product agreeing with productA on the four numeric inputs of the
reorder computation and differing in every other attribute. -/
def productB : Product :=
  { id := 2, sku := "B-2", name := "Beta", category := some "tools",
    supplier := some "Acme", quantity := some 12,
    low_stock_threshold := some 99, lead_time_days := some 7,
    avg_daily_demand := some (3/2), safety_stock := some 5,
    is_active := false, created_at := 10, updated_at := 20 }

/-- The validated listing item arising from exampleProduct. -/
def exampleItem : ReorderItem :=
  { id := 1, sku := "SKU-1", name := "Widget", category := none,
    supplier := none, quantity := 12, lead_time_days := 7,
    avg_daily_demand := 3/2, safety_stock := 5, reorder_point := 16,
    status := .WARNING, target_stock := 27, suggested_reorder := 15,
    below_by := 4 }

/-- An active product whose quantity column is NULL: its normalized
quantity 0 is at most its safety stock 0, so its status is CRITICAL and
the listing route must build an item from it, which pydantic rejects. -/
def nullQuantityProduct : Product :=
  { id := 3, sku := "SKU-3", name := "Ghost", category := none,
    supplier := none, quantity := none, low_stock_threshold := some 10,
    lead_time_days := some 0, avg_daily_demand := some 0,
    safety_stock := some 0, is_active := true, created_at := 0,
    updated_at := 0 }

/-- Claim C1: compute_rop returns 0 when any of the three inputs is
negative, and otherwise the ceiling (not floor or round) of
avg_daily_demand * lead_time_days + safety_stock. -/
theorem compute_rop_correct (l : ℤ) (d : ℚ) (s : ℤ) :
    ((l < 0 ∨ d < 0 ∨ s < 0) → compute_rop l d s = 0) ∧
    (0 ≤ l → 0 ≤ d → 0 ≤ s →
      compute_rop l d s = ⌈d * (l : ℚ) + (s : ℚ)⌉) := by
  constructor
  · intro h
    rw [compute_rop, if_pos h]
  · intro hl hd hs
    rw [compute_rop, if_neg]
    push_neg
    exact ⟨hl, hd, hs⟩

/-- Witness for C1: the negative fallback at lead time -1 and the ceiling
formula at lead time 7, demand 3/2, safety stock 5. -/
theorem compute_rop_correct_witness :
    compute_rop (-1) (3/2) 5 = 0 ∧
    compute_rop 7 (3/2) 5 = ⌈(3/2 : ℚ) * ((7 : ℤ) : ℚ) + ((5 : ℤ) : ℚ)⌉ := by
  constructor
  · exact (compute_rop_correct (-1) (3/2) 5).1 (Or.inl (by norm_num))
  · exact (compute_rop_correct 7 (3/2) 5).2 (by norm_num) (by norm_num)
      (by norm_num)

/-- Claim C2: compute_status evaluates its rules top-to-bottom with first
match winning: CRITICAL whenever quantity is at most safety_stock,
regardless of the reorder point; otherwise WARNING whenever quantity is at
most the reorder point; otherwise OK. -/
theorem compute_status_correct (q rop s : ℤ) :
    (q ≤ s → compute_status q rop s = .CRITICAL) ∧
    (s < q → q ≤ rop → compute_status q rop s = .WARNING) ∧
    (s < q → rop < q → compute_status q rop s = .OK) := by
  refine ⟨fun h => ?_, fun h1 h2 => ?_, fun h1 h2 => ?_⟩
  · rw [compute_status, if_pos h]
  · rw [compute_status, if_neg (not_le.mpr h1), if_pos h2]
  · rw [compute_status, if_neg (not_le.mpr h1), if_neg (not_le.mpr h2)]

/-- Witness for C2: the CRITICAL case is taken at quantity 6 with reorder
point 4 below safety stock 10 (CRITICAL while quantity exceeds the reorder
point), plus one WARNING and one OK instance. -/
theorem compute_status_correct_witness :
    compute_status 6 4 10 = .CRITICAL ∧
    compute_status 12 16 5 = .WARNING ∧
    compute_status 100 16 5 = .OK :=
  ⟨(compute_status_correct 6 4 10).1 (by decide),
   (compute_status_correct 12 16 5).2.1 (by decide) (by decide),
   (compute_status_correct 100 16 5).2.2 (by decide) (by decide)⟩

/-- Claim C3: compute_reorder_fields normalizes null numeric fields to
zero and then returns reorder_point = compute_rop of the normalized
inputs, status = compute_status on the normalized quantity, target_stock =
reorder_point + ceil(demand * lead), suggested_reorder =
max 0 (target_stock - quantity) and below_by =
max 0 (reorder_point - quantity). -/
theorem compute_reorder_fields_correct (p : Product) :
    (compute_reorder_fields p).reorder_point =
      compute_rop (p.lead_time_days.getD 0) (p.avg_daily_demand.getD 0)
        (p.safety_stock.getD 0) ∧
    (compute_reorder_fields p).status =
      compute_status (p.quantity.getD 0)
        ((compute_reorder_fields p).reorder_point) (p.safety_stock.getD 0) ∧
    (compute_reorder_fields p).target_stock =
      (compute_reorder_fields p).reorder_point +
        ⌈(p.avg_daily_demand.getD 0) * ((p.lead_time_days.getD 0 : ℤ) : ℚ)⌉ ∧
    (compute_reorder_fields p).suggested_reorder =
      max 0 ((compute_reorder_fields p).target_stock - p.quantity.getD 0) ∧
    (compute_reorder_fields p).below_by =
      max 0 ((compute_reorder_fields p).reorder_point - p.quantity.getD 0) :=
  ⟨rfl, rfl, rfl, rfl, rfl⟩

/-- Claim C4: on the snapshot quantity 12, lead time 7, demand 3/2, safety
stock 5, the computed fields are reorder point 16, status WARNING, target
stock 27, suggested reorder 15, below_by 4. -/
theorem compute_reorder_fields_example :
    compute_reorder_fields exampleProduct =
      { reorder_point := 16, status := .WARNING, target_stock := 27,
        suggested_reorder := 15, below_by := 4 } := by
  have h1 : compute_rop 7 (3/2) 5 = 16 := by
    rw [compute_rop, if_neg (by norm_num), Int.ceil_eq_iff]
    norm_num
  have h2 : (⌈(3/2 : ℚ) * 7⌉ : ℤ) = 11 := by
    rw [Int.ceil_eq_iff]
    norm_num
  simp [compute_reorder_fields, exampleProduct, h1, h2]
  decide

/-- Claim C5: for non-negative inputs, compute_rop is at least the safety
stock. -/
theorem compute_rop_ge_safety_stock (l : ℤ) (d : ℚ) (s : ℤ)
    (hl : 0 ≤ l) (hd : 0 ≤ d) (hs : 0 ≤ s) : s ≤ compute_rop l d s := by
  rw [compute_rop, if_neg (by push_neg; exact ⟨hl, hd, hs⟩)]
  have hle : (s : ℚ) ≤ d * (l : ℚ) + (s : ℚ) := by
    have : (0 : ℚ) ≤ d * (l : ℚ) := mul_nonneg hd (by exact_mod_cast hl)
    linarith
  exact_mod_cast hle.trans (Int.le_ceil _)

/-- Witness for C5: at lead time 7, demand 3/2, safety stock 5 the reorder
point is bounded below by the safety stock. -/
theorem compute_rop_ge_safety_stock_witness :
    (5 : ℤ) ≤ compute_rop 7 (3/2) 5 :=
  compute_rop_ge_safety_stock 7 (3/2) 5 (by norm_num) (by norm_num)
    (by norm_num)

/-- Claim C6: with reorder point and safety stock fixed, raising the
quantity never raises the severity of compute_status under the ordering
OK < WARNING < CRITICAL. -/
theorem compute_status_monotone (q1 q2 rop s : ℤ) (h : q1 ≤ q2) :
    (compute_status q2 rop s).severity ≤ (compute_status q1 rop s).severity := by
  unfold compute_status
  split_ifs <;> simp [Status.severity] <;> omega

/-- Witness for C6: moving the quantity from 5 up to 12 with reorder point
16 and safety stock 5 does not raise the severity. -/
theorem compute_status_monotone_witness :
    (compute_status 12 16 5).severity ≤ (compute_status 5 16 5).severity :=
  compute_status_monotone 5 12 16 5 (by decide)

/-- The filtering loop is the effectful traversal of the non-OK products:
it validates an item for exactly the products whose computed status is
not OK, in order, and fails as a whole when any validation fails. -/
theorem reorderItemsOf_eq (l : List Product) :
    reorderItemsOf l =
      (l.filter (fun p => (compute_reorder_fields p).status ≠ Status.OK)).mapM
        (fun p => mkReorderItem p (compute_reorder_fields p)) := by
  induction l with
  | nil => rfl
  | cons p rest ih =>
    rw [reorderItemsOf]
    by_cases h : (compute_reorder_fields p).status = Status.OK
    · rw [if_neg (not_not_intro h),
        List.filter_cons_of_neg (by simpa using h), ih]
    · rw [if_pos h, List.filter_cons_of_pos (by simpa using h),
        List.mapM_cons, ih]
      cases hm : mkReorderItem p (compute_reorder_fields p) <;>
        cases hr : (rest.filter
          (fun p => (compute_reorder_fields p).status ≠ Status.OK)).mapM
          (fun p => mkReorderItem p (compute_reorder_fields p)) <;>
        simp [hm, hr]

/-- Claim C7, counterexample: nullQuantityProduct is active and its
computed status is CRITICAL, yet the listing endpoint on a database
holding just this product does not return it (or any listing at all): its
NULL quantity column fails pydantic validation of the required int field,
so the endpoint raises, and the CSV endpoint raises with it. -/
theorem reorder_list_null_column_cex :
    nullQuantityProduct.is_active = true ∧
    (compute_reorder_fields nullQuantityProduct).status ≠ Status.OK ∧
    reorder_list [nullQuantityProduct] = none ∧
    reorder_list_csv [nullQuantityProduct] = none := by
  refine ⟨rfl, ?_, ?_, ?_⟩
  · simp [compute_reorder_fields, nullQuantityProduct, compute_status]
  · rfl
  · rfl

/-- Claim C7 as amended: when the listing succeeds, the items returned are
exactly the active products whose computed status is not OK, each
validated into its item in order (so compute_reorder_fields is evaluated
on every active product and filtering happens only in this caller); the
CSV export succeeds with the fixed header followed by one row per item,
each row carrying the thirteen cells in the fixed column order. A NULL
numeric column on an active non-OK product instead fails validation, as
the counterexample shows. -/
theorem reorder_routes_correct (db : List Product) (items : List ReorderItem)
    (h : reorder_list db = some items) :
    ((db.filter (fun p => p.is_active)).filter
        (fun p => (compute_reorder_fields p).status ≠ Status.OK)).mapM
        (fun p => mkReorderItem p (compute_reorder_fields p)) = some items ∧
    reorder_list_csv db = some (csvHeader :: items.map csvRow) ∧
    ∀ r : ReorderItem, csvRow r =
      [Cell.str r.sku, Cell.str r.name, Cell.str (r.category.getD ""),
       Cell.str (r.supplier.getD ""), Cell.int r.quantity,
       Cell.int r.lead_time_days, Cell.rat r.avg_daily_demand,
       Cell.int r.safety_stock, Cell.int r.reorder_point,
       Cell.stat r.status, Cell.int r.target_stock,
       Cell.int r.suggested_reorder, Cell.int r.below_by] := by
  refine ⟨?_, ?_, fun _ => rfl⟩
  · rw [← reorderItemsOf_eq]
    exact h
  · rw [reorder_list_csv, h]
    rfl

/-- Witness for C7 as amended: on the one-product database holding
exampleProduct the listing succeeds with exactly its WARNING item, and
the CSV is the header plus that item's row. -/
theorem reorder_routes_correct_witness :
    reorder_list [exampleProduct] = some [exampleItem] ∧
    reorder_list_csv [exampleProduct] =
      some (csvHeader :: [exampleItem].map csvRow) := by
  have h1 : compute_rop 7 (3/2) 5 = 16 := by
    rw [compute_rop, if_neg (by norm_num), Int.ceil_eq_iff]
    norm_num
  have h2 : (⌈(3/2 : ℚ) * 7⌉ : ℤ) = 11 := by
    rw [Int.ceil_eq_iff]
    norm_num
  have hf : compute_reorder_fields exampleProduct =
      { reorder_point := 16, status := .WARNING, target_stock := 27,
        suggested_reorder := 15, below_by := 4 } := by
    simp [compute_reorder_fields, exampleProduct, h1, h2]
    decide
  have h : reorder_list [exampleProduct] = some [exampleItem] := by
    have hact : [exampleProduct].filter (fun p => p.is_active) =
        [exampleProduct] := rfl
    rw [reorder_list, hact, reorderItemsOf, hf]
    rfl
  exact ⟨h, (reorder_routes_correct [exampleProduct] [exampleItem] h).2.1⟩

/-- Claim C8: on the snapshot quantity 0, lead time -1, demand 2, safety
stock 0, the zero fallback applies to the reorder point but the
lead-demand intermediate is computed from the raw negative values, so the
returned target stock is -2, which is negative. -/
theorem target_stock_negative_example :
    (compute_reorder_fields negativeLeadProduct).reorder_point = 0 ∧
    (compute_reorder_fields negativeLeadProduct).target_stock = -2 ∧
    (compute_reorder_fields negativeLeadProduct).target_stock < 0 := by
  have h2 : (⌈(-2 : ℚ)⌉ : ℤ) = -2 := by
    rw [Int.ceil_eq_iff]
    norm_num
  have h1 : compute_rop (-1) 2 0 = 0 := by decide
  refine ⟨?_, ?_, ?_⟩ <;>
    simp [compute_reorder_fields, negativeLeadProduct, h1, h2]

/-- Claim C9: the result of compute_reorder_fields depends only on the
four numeric fields lead_time_days, avg_daily_demand, safety_stock and
quantity: two snapshots agreeing on those four get identical results. -/
theorem compute_reorder_fields_depends_only_on_numerics (p q : Product)
    (h1 : p.lead_time_days = q.lead_time_days)
    (h2 : p.avg_daily_demand = q.avg_daily_demand)
    (h3 : p.safety_stock = q.safety_stock)
    (h4 : p.quantity = q.quantity) :
    compute_reorder_fields p = compute_reorder_fields q := by
  simp [compute_reorder_fields, h1, h2, h3, h4]

/-- Witness for C9: productA and productB share the four numeric fields
and differ in id, sku, name, category, supplier, low_stock_threshold,
is_active and both timestamps, yet get the same result. -/
theorem compute_reorder_fields_depends_only_on_numerics_witness :
    compute_reorder_fields productA = compute_reorder_fields productB :=
  compute_reorder_fields_depends_only_on_numerics productA productB
    rfl rfl rfl rfl

/-- Claim C10: for every snapshot, negative fields included, the returned
reorder point, suggested reorder and below_by are all non-negative. -/
theorem reorder_fields_nonneg (p : Product) :
    0 ≤ (compute_reorder_fields p).reorder_point ∧
    0 ≤ (compute_reorder_fields p).suggested_reorder ∧
    0 ≤ (compute_reorder_fields p).below_by := by
  have hrop : ∀ (l : ℤ) (d : ℚ) (s : ℤ), 0 ≤ compute_rop l d s := by
    intro l d s
    rw [compute_rop]
    split_ifs with h
    · exact le_refl 0
    · push_neg at h
      obtain ⟨hl, hd, hs⟩ := h
      refine Int.ceil_nonneg ?_
      have : (0 : ℚ) ≤ d * (l : ℚ) := mul_nonneg hd (by exact_mod_cast hl)
      have hs' : (0 : ℚ) ≤ (s : ℚ) := by exact_mod_cast hs
      linarith
  refine ⟨hrop _ _ _, le_max_left 0 _, le_max_left 0 _⟩

end SuppliSense
